import Mathlib

/-!
Verification of the authentication / authorization contract of a
Node.js CRUD backend (users, tasks), against its natural-language
specification.

The JavaScript source is shallowly embedded: each middleware, service and
repository function becomes a Lean function over explicit request data and
an explicit task store; external collaborators (the JWT library, the
password hasher, the document store) are passed in as function arguments,
so each embedded function is parametric in the outcome of its
collaborators exactly where the source `await`s them.  Thrown JavaScript
errors are `Except.error` values carrying the thrown message.
-/

deriving instance DecidableEq for Except

namespace Backend

/-! ## Response factory (`src/factories/responseFactory.js`)

`createErrorResponse` produces `{status:'error', message, result:null,
timestamp}` with an optional machine `code`; the timestamp is wall-clock
output and is not modelled.  The body is reduced to the observable
`message` and `code` fields. -/

structure ErrBody where
  message : String
  code : Option String
deriving DecidableEq, Repr

/-- `ResponseFactory.createErrorResponse(message)` — `code` omitted (null). -/
def createErrorResponse (msg : String) : ErrBody := ⟨msg, none⟩

/-- `ResponseFactory.createUnauthorizedResponse(message)` — code `UNAUTHORIZED`. -/
def createUnauthorizedResponse (msg : String) : ErrBody := ⟨msg, some "UNAUTHORIZED"⟩

/-- `ResponseFactory.createForbiddenResponse(message)` — code `FORBIDDEN`. -/
def createForbiddenResponse (msg : String) : ErrBody := ⟨msg, some "FORBIDDEN"⟩

/-- Modelled from the spec: the ESM `unauthorizedResponse` helper imported by
`verifyJWT` is not present under `src/`; per the spec it shapes a uniform
error envelope around the message (no machine code is specified for it). -/
def unauthorizedResponse (msg : String) : ErrBody := ⟨msg, none⟩

/-- Outcome of running one Express middleware on a request: either a
response was sent (`res.status(s).json(body)`) and the chain stops, or
`next()` was invoked with context `ctx` attached to the request. -/
inductive MwResult (α : Type) where
  | rejected (status : Nat) (body : ErrBody)
  | proceeded (ctx : α)
deriving DecidableEq, Repr

/-! ## JavaScript string primitives used by the source -/

/-- `List`-level search: does `p` occur as a contiguous sublist of the
second argument?  Backs JavaScript's case-sensitive `String.includes`. -/
def listContainsSub (p : List Char) : List Char → Bool
  | [] => List.isPrefixOf p []
  | c :: t => List.isPrefixOf p (c :: t) || listContainsSub p t

/-- JavaScript `s.includes(pat)` (case-sensitive substring test). -/
def strIncludes (s pat : String) : Bool :=
  listContainsSub pat.toList s.toList

/-- Remove the first occurrence of `p` (replacement by the empty string);
if `p` does not occur the list is returned unchanged. -/
def listReplaceOnce (p : List Char) : List Char → List Char
  | [] => []
  | c :: t =>
    if List.isPrefixOf p (c :: t) then List.drop p.length (c :: t)
    else c :: listReplaceOnce p t

/-- JavaScript `s.replace(pat, '')` with a string pattern: only the first
occurrence is removed, anywhere in the string (not only as a prefix). -/
def jsReplaceOnce (s pat : String) : String :=
  String.mk (listReplaceOnce pat.toList s.toList)

/-- JavaScript falsiness of an optional string: `undefined` and `''` are
falsy, every other string is truthy. -/
def jsFalsy : Option String → Bool
  | none => true
  | some s => decide (s = "")

/-! ## Token codec

Modelled from the spec: the `jsonwebtoken` library (`jwt.sign` /
`jwt.verify`) is a third-party dependency, not part of the repository
source; per the spec the token's logical payload is the subject
identifier, issued-at and expiry, signed with the server secret, and
verification checks the signature against that secret and the time-based
claims against the server clock.  The signature is modelled symbolically:
a MAC value determined by the secret and the signed claims, so that a
signature verifies exactly when it was produced over the same claims with
the same secret. -/

structure MacVal where
  secret : String
  sub : String
  iat : Nat
  exp : Nat
  nbf : Option Nat
deriving DecidableEq, Repr

/-- Symbolic MAC over the token claims under `secret`. -/
def macOf (secret sub : String) (iat exp : Nat) (nbf : Option Nat) : MacVal :=
  ⟨secret, sub, iat, exp, nbf⟩

/-- A structurally well-formed token: subject-identifier claim (`userId`
in the ESM variant, `id` in the CJS variant), issued-at, expiry, optional
not-before, and the attached (possibly forged) signature. -/
structure Token where
  sub : String
  iat : Nat
  exp : Nat
  nbf : Option Nat
  sig : MacVal
deriving DecidableEq, Repr

/-- What reaches `jwt.verify`: a well-formed token (possibly tampered) or
a string that does not parse as a JWT at all. -/
inductive JwtInput where
  | token (t : Token)
  | notAJwt (s : String)
deriving DecidableEq, Repr

/-- Error classes thrown by `jsonwebtoken`, distinguished by `error.name`. -/
inductive JwtError where
  | TokenExpiredError
  | JsonWebTokenError
  | NotBeforeError
deriving DecidableEq, Repr

/-- Is the not-before claim still in the future at `now`? -/
def nbfViolated (nbf : Option Nat) (now : Nat) : Bool :=
  match nbf with
  | none => false
  | some n => decide (now < n)

/-- Modelled from the spec: `jwt.verify(token, secret)` at server clock
`now` — signature first, then the `nbf` claim, then expiry (expired when
`now ≥ exp`, no leeway). -/
def jwtVerify (secret : String) (input : JwtInput) (now : Nat) : Except JwtError Token :=
  match input with
  | .notAJwt _ => .error .JsonWebTokenError
  | .token t =>
    if t.sig ≠ macOf secret t.sub t.iat t.exp t.nbf then .error .JsonWebTokenError
    else if nbfViolated t.nbf now then .error .NotBeforeError
    else if t.exp ≤ now then .error .TokenExpiredError
    else .ok t

/-- Modelled from the spec: `jwt.sign(payload, secret, {expiresIn})` at
server clock `now` — a well-formed token over the subject identifier with
expiry `now + ttl` and a genuine signature under `secret`
(`src/unnamed/part_005` `generateToken` and `src/src/utils/generateToken.js`
`generateToken` both delegate to it). -/
def generateToken (secret sub : String) (now ttl : Nat) : Token :=
  { sub := sub, iat := now, exp := now + ttl, nbf := none,
    sig := macOf secret sub now (now + ttl) none }

/-- The spec's credential-failure taxonomy for the Token Codec. -/
inductive CredentialError where
  | ExpiredCredential
  | MalformedCredential
  | InvalidCredential
deriving DecidableEq, Repr

/-- The message carried by the `Error` that
`src/src/utils/generateToken.js` `verifyToken` throws for each kind. -/
def CredentialError.message : CredentialError → String
  | .ExpiredCredential => "Token has expired"
  | .MalformedCredential => "Invalid token"
  | .InvalidCredential => "Token verification failed"

/-- `verifyToken` (`src/src/utils/generateToken.js`): wraps `jwt.verify`,
dispatching on the thrown error's `name` — `TokenExpiredError` becomes
`Token has expired`, `JsonWebTokenError` becomes `Invalid token`, and any
other verification error (e.g. `NotBeforeError`) becomes
`Token verification failed`.  Pure: no state is read or written beyond
the arguments. -/
def verifyToken (secret : String) (input : JwtInput) (now : Nat) : Except CredentialError Token :=
  match jwtVerify secret input now with
  | .ok t => .ok t
  | .error .TokenExpiredError => .error .ExpiredCredential
  | .error .JsonWebTokenError => .error .MalformedCredential
  | .error .NotBeforeError => .error .InvalidCredential

/-! ## Credential extraction -/

/-- `extractTokenFromHeader` (`src/src/utils/generateToken.js`): `null`
unless the header is truthy and starts with `Bearer `, else `slice(7)`. -/
def extractTokenFromHeader : Option String → Option String
  | none => none
  | some h =>
    if h = "" then none
    else if List.isPrefixOf "Bearer ".toList h.toList then
      some (String.mk (List.drop 7 h.toList))
    else none

/-- The ESM gate's extraction (`verifyJWT`, `src/src/middlewares/authMiddleware.js`):
`req.cookies?.accessToken || req.header('Authorization')?.replace('Bearer ', '')`
— the cookie wins when truthy, otherwise the header with the first
occurrence of `Bearer ` removed (absent header gives `undefined`). -/
def extractCredential (cookieToken authHeader : Option String) : Option String :=
  match cookieToken with
  | some c =>
    if c ≠ "" then some c
    else Option.map (fun h => jsReplaceOnce h "Bearer ") authHeader
  | none => Option.map (fun h => jsReplaceOnce h "Bearer ") authHeader

/-! ## Principals and request context -/

/-- A stored principal document of the CJS `User` schema
(`src/src/models/User.js`): `id`, `name`, `email`, `password`.  The last
field carries the spec's optional role marker on the Principal — needed
to state the spec's four-field projection — but NO schema under `src/`
declares a `role` path (the ESM schema's marker is named `isAdmin`, the
CJS schema has none), so in the program as written this field is always
absent; a document with `role = some r` is store content the program
itself can never produce. -/
structure StoredUser where
  id : String
  name : String
  email : String
  password : String
  role : Option String
deriving DecidableEq, Repr

/-- The value middlewares attach as `req.user`: a JavaScript object whose
absent fields read as `undefined` (here `role : Option String`). -/
structure ReqUser where
  id : String
  name : String
  email : String
  role : Option String
deriving DecidableEq, Repr

/-- Modelled from the spec: the projection the Authentication Gate is
specified to attach — "a minimal projection of the principal (id, name,
email, role)". -/
def specPrincipalProjection (u : StoredUser) : ReqUser :=
  ⟨u.id, u.name, u.email, u.role⟩

/-- A stored principal document of the ESM `User` schema
(`src/src/models/userModel.js`): identity and auth fields `userName`,
`email`, `password`, `fullName`, and the schema's role marker `isAdmin`
(enum `user`/`admin`, default `user`).  The schema declares no `role`
path.  The profile fields (bio, skills, experience, ...) are never read
by the auth path and are omitted. -/
structure UserDoc where
  id : String
  userName : String
  email : String
  password : String
  fullName : String
  isAdmin : String
deriving DecidableEq, Repr

/-- The property read `req.user.role` on an attached ESM user document:
the `userModel` schema has no `role` path (its role marker is the
separate `isAdmin` field), so the read yields `undefined` for every
document. -/
def UserDoc.role (_ : UserDoc) : Option String := none

/-! ## ESM Authentication Gate (`verifyJWT`) -/

/-- `verifyJWT` (`src/src/middlewares/authMiddleware.js`, ESM variant).
`verify` is `jwt.verify(token, JWT_SECRET)` on the extracted token string
(errors carry the thrown message); `findById` is `User.findById` on the
`userId` claim, against the ESM `userModel` schema.  Any error thrown
inside the `try` is answered with 401 `Invalid access token: <message>`;
a falsy token or an unresolved principal with 401 `Unauthorized access`;
on success the full user document is attached untouched (`req.user =
user`) and `next()` runs — the middleware never inspects the document's
fields, so it is parametric in the document type. -/
def verifyJWT {α : Type} (verify : String → Except String Token)
    (findById : String → Except String (Option α))
    (cookieToken authHeader : Option String) : MwResult α :=
  match extractCredential cookieToken authHeader with
  | none => .rejected 401 (unauthorizedResponse "Unauthorized access")
  | some t =>
    if t = "" then .rejected 401 (unauthorizedResponse "Unauthorized access")
    else
      match verify t with
      | .error msg => .rejected 401 (unauthorizedResponse ("Invalid access token: " ++ msg))
      | .ok tok =>
        match findById tok.sub with
        | .error msg => .rejected 401 (unauthorizedResponse ("Invalid access token: " ++ msg))
        | .ok none => .rejected 401 (unauthorizedResponse "Unauthorized access")
        | .ok (some u) => .proceeded u

/-! ## CJS Authentication Gate (`authMiddleware`) -/

/-- The `catch` block of `authMiddleware`: dispatches on the thrown
message with JavaScript's case-sensitive `includes`. -/
def authErrorCatch (msg : String) : MwResult ReqUser :=
  if strIncludes msg "expired" then
    .rejected 401 (createUnauthorizedResponse "Token has expired")
  else if strIncludes msg "invalid" || strIncludes msg "malformed" then
    .rejected 401 (createUnauthorizedResponse "Invalid token")
  else
    .rejected 401 (createUnauthorizedResponse "Authentication failed")

/-- `authMiddleware` (`src/src/middlewares/authMiddleware.js`, CJS
variant): extract from the `Authorization` header only; missing token ⇒
401 `Access token required`; `verifyToken` failure or a throwing store
lookup ⇒ the `catch` dispatch; unresolved principal ⇒ 401
`User no longer exists`; success attaches `{id, name, email}` (note: no
`role` key, so `req.user.role` reads `undefined`) and runs `next()`. -/
def authMiddleware (verify : String → Except CredentialError Token)
    (findById : String → Except String (Option StoredUser))
    (authHeader : Option String) : MwResult ReqUser :=
  match extractTokenFromHeader authHeader with
  | none => .rejected 401 (createUnauthorizedResponse "Access token required")
  | some t =>
    if t = "" then .rejected 401 (createUnauthorizedResponse "Access token required")
    else
      match verify t with
      | .error e => authErrorCatch e.message
      | .ok tok =>
        match findById tok.sub with
        | .error msg => authErrorCatch msg
        | .ok none => .rejected 401 (createUnauthorizedResponse "User no longer exists")
        | .ok (some u) => .proceeded ⟨u.id, u.name, u.email, none⟩

/-- `optionalAuth` (`src/src/middlewares/authMiddleware.js`): identical
extraction / verification / resolution, but every failure path — no
token, a falsy token, a verification error, a throwing lookup, or an
unresolved principal — falls through to `next()` without attaching
anything (the `catch` also just calls `next()`). -/
def optionalAuth (verify : String → Except CredentialError Token)
    (findById : String → Except String (Option StoredUser))
    (authHeader : Option String) : MwResult (Option ReqUser) :=
  match extractTokenFromHeader authHeader with
  | none => .proceeded none
  | some t =>
    if t = "" then .proceeded none
    else
      match verify t with
      | .error _ => .proceeded none
      | .ok tok =>
        match findById tok.sub with
        | .error _ => .proceeded none
        | .ok none => .proceeded none
        | .ok (some u) => .proceeded (some ⟨u.id, u.name, u.email, none⟩)

/-! ## Authorization Gate -/

/-- `authorize(...allowedRoles)` (`src/src/middlewares/authMiddleware.js`)
over an arbitrary attached `req.user` object: the JavaScript reads only
the object's presence and its `role` property (`roleOf`, the property
access on the attached value).  No `req.user` ⇒ 401
`Authentication required`; a falsy `req.user.role` or a role outside the
allowed list ⇒ 403 `Insufficient permissions`; otherwise `next()`. -/
def authorizeOn {α : Type} (roleOf : α → Option String) (allowedRoles : List String)
    (user : Option α) : MwResult α :=
  match user with
  | none => .rejected 401 (createUnauthorizedResponse "Authentication required")
  | some u =>
    match roleOf u with
    | none => .rejected 403 (createForbiddenResponse "Insufficient permissions")
    | some r =>
      if r = "" then .rejected 403 (createForbiddenResponse "Insufficient permissions")
      else if allowedRoles.contains r then .proceeded u
      else .rejected 403 (createForbiddenResponse "Insufficient permissions")

/-- `authorize` applied to a request context value, reading its `role`
field. -/
def authorize (allowedRoles : List String) (user : Option ReqUser) : MwResult ReqUser :=
  authorizeOn ReqUser.role allowedRoles user

/-- `checkResourceOwnership(resourceParam, getResourceUserId)`
(`src/src/middlewares/authMiddleware.js`): no principal ⇒ 401; a resolver
that throws ⇒ the `catch` answers 500 `Error checking resource ownership`
(code `null`); a resolver that yields `null`/`undefined` makes
`resourceUserId.toString()` throw `TypeError`, caught by the same `catch`
⇒ 500; an owner id differing from `req.user.id` ⇒ 403
`Access denied to this resource`; only a matching owner reaches `next()`. -/
def checkResourceOwnership (getResourceUserId : String → Except String (Option String))
    (resourceId : String) (user : Option ReqUser) : MwResult ReqUser :=
  match user with
  | none => .rejected 401 (createUnauthorizedResponse "Authentication required")
  | some u =>
    match getResourceUserId resourceId with
    | .error _ => .rejected 500 (createErrorResponse "Error checking resource ownership")
    | .ok none => .rejected 500 (createErrorResponse "Error checking resource ownership")
    | .ok (some ownerId) =>
      if ownerId ≠ u.id then
        .rejected 403 (createForbiddenResponse "Access denied to this resource")
      else .proceeded u

/-! ## Task store, repository and service
(`src/src/models/task.model.js`, `src/src/app/repositories/taskRepository.js`,
`src/src/app/services/taskService.js`)

The document store is a list of task documents; `findByIdAndUpdate` /
`findByIdAndDelete` return the post-state of the store together with the
updated (`new: true`) or deleted document, `none` when no document has the
given id. -/

structure Task where
  id : String
  userId : String
  title : String
  description : String
  status : String
deriving DecidableEq, Repr

/-- A partial update object: absent keys leave the field unchanged. -/
structure TaskUpdate where
  title : Option String
  description : Option String
  status : Option String
deriving DecidableEq, Repr

def applyTaskUpdate (t : Task) (d : TaskUpdate) : Task :=
  { t with
    title := d.title.getD t.title
    description := d.description.getD t.description
    status := d.status.getD t.status }

/-- `Task.findByIdAndUpdate(taskId, taskData, {new: true})`. -/
def findByIdAndUpdate : List Task → String → TaskUpdate → List Task × Option Task
  | [], _, _ => ([], none)
  | t :: rest, taskId, d =>
    if t.id = taskId then (applyTaskUpdate t d :: rest, some (applyTaskUpdate t d))
    else
      let r := findByIdAndUpdate rest taskId d
      (t :: r.1, r.2)

/-- `Task.findByIdAndDelete(taskId)`. -/
def findByIdAndDelete : List Task → String → List Task × Option Task
  | [], _ => ([], none)
  | t :: rest, taskId =>
    if t.id = taskId then (rest, some t)
    else
      let r := findByIdAndDelete rest taskId
      (t :: r.1, r.2)

namespace taskRepository

/-- `taskRepository.updateTask(taskId, taskData)`. -/
def updateTask (store : List Task) (taskId : String) (d : TaskUpdate) :
    List Task × Option Task :=
  findByIdAndUpdate store taskId d

/-- `taskRepository.deleteTask(taskId)` — the repository function takes a
single id parameter. -/
def deleteTask (store : List Task) (taskId : String) : List Task × Option Task :=
  findByIdAndDelete store taskId

end taskRepository

namespace taskService

/-- `taskService.updateTask(userId, taskId, taskData)`: runs the
repository update first, then raises `Task not found` on a missing
document or the ownership error when the (already updated) document's
`userId` differs from the caller; the `catch` prefixes
`Error updating task: `.  The returned pair is (post-state of the store,
outcome). -/
def updateTask (store : List Task) (userId taskId : String) (d : TaskUpdate) :
    List Task × Except String Task :=
  match taskRepository.updateTask store taskId d with
  | (store2, none) => (store2, .error "Error updating task: Task not found")
  | (store2, some t) =>
    if t.userId ≠ userId then
      (store2, .error "Error updating task: Unauthorized: You can only update your own tasks")
    else (store2, .ok t)

/-- `taskService.deleteTask(userId, taskId)`: calls
`taskRepository.deleteTask(userId, taskId)` — the repository's single
`taskId` parameter therefore receives `userId` — then checks `Task not
found` and ownership on the already deleted document.  No `try`/`catch`
in the source, so errors propagate with their raw messages. -/
def deleteTask (store : List Task) (userId taskId : String) :
    List Task × Except String Task :=
  match taskRepository.deleteTask store userId with
  | (store2, none) => (store2, .error "Task not found")
  | (store2, some t) =>
    if t.userId ≠ userId then
      (store2, .error "Unauthorized: You can only delete your own tasks")
    else (store2, .ok t)

end taskService

/-! ## `UserService.login` (`src/src/app/services/userService.js`)

Collaborators: `userRepository.loginUser(email)` (lookup including the
password hash), `comparePassword(candidate, hash)`, and the token signer;
each may throw (`Except.error` with the thrown message). -/

structure UserRec where
  id : String
  userName : String
  email : String
  password : String
deriving DecidableEq, Repr

structure LoginResult where
  message : String
  user : UserRec
  token : String
deriving DecidableEq, Repr

namespace UserService

/-- The body of the `try` block of `UserService.login`: lookup, password
check, token generation, with the intermediate error messages the source
throws (`Invalid Credentials`, `Invalid Password`). -/
def loginAttempt (loginUser : String → Except String (Option UserRec))
    (comparePassword : String → String → Except String Bool)
    (signToken : String → Except String String)
    (email password : String) : Except String LoginResult :=
  match loginUser email with
  | .error msg => .error msg
  | .ok none => .error "Invalid Credentials"
  | .ok (some user) =>
    match comparePassword password user.password with
    | .error msg => .error msg
    | .ok false => .error "Invalid Password"
    | .ok true =>
      match signToken user.id with
      | .error msg => .error msg
      | .ok token => .ok ⟨"User loggedin Successfully", user, token⟩

/-- `UserService.login(userData)`: the surrounding `catch` replaces every
thrown error by `Error Logging in User. Please try again.`. -/
def login (loginUser : String → Except String (Option UserRec))
    (comparePassword : String → String → Except String Bool)
    (signToken : String → Except String String)
    (email password : String) : Except String LoginResult :=
  match loginAttempt loginUser comparePassword signToken email password with
  | .ok r => .ok r
  | .error _ => .error "Error Logging in User. Please try again."

end UserService

/-! ## Helper lemmas -/

/-- Whatever the thrown message, `authMiddleware`'s `catch` answers with
status 401. -/
theorem authErrorCatch_status (msg : String) : ∃ b, authErrorCatch msg = .rejected 401 b := by
  unfold authErrorCatch
  split
  · exact ⟨_, rfl⟩
  · split
    · exact ⟨_, rfl⟩
    · exact ⟨_, rfl⟩

/-! ## Claim theorems -/

/-- C1: the task service runs the repository mutation before the
ownership comparison, so a request by a non-owner fails with the
ownership error while the store has already been changed: the update on
`t1` (owned by `u10`, requested by `u20`) is applied, and the delete
(which moreover hands the caller's id to the repository's id parameter)
removes a document even though the call is rejected.  This contradicts
the spec's invariant that mutation/deletion is permitted only for the
owner. -/
theorem taskService_mutates_before_ownership_rejection :
    taskService.updateTask [⟨"t1", "u10", "a", "d", "pending"⟩] "u20" "t1"
        ⟨some "b", none, none⟩
      = ([⟨"t1", "u10", "b", "d", "pending"⟩],
         .error "Error updating task: Unauthorized: You can only update your own tasks") ∧
    taskService.deleteTask [⟨"u20", "u10", "a", "d", "pending"⟩] "u20" "t1"
      = ([], .error "Unauthorized: You can only delete your own tasks") := by
  exact ⟨by decide, by decide⟩

/-- C3: verifying the token issued for `sub` with time-to-live `ttl`
under the same secret, at any time strictly before the expiry, succeeds
and returns the original subject identifier. -/
theorem verify_after_issue_roundtrip (secret sub : String) (now ttl t : Nat)
    (h : t < now + ttl) :
    verifyToken secret (.token (generateToken secret sub now ttl)) t
      = .ok (generateToken secret sub now ttl) ∧
    (generateToken secret sub now ttl).sub = sub := by
  have hne : ¬ (now + ttl ≤ t) := by omega
  refine ⟨?_, rfl⟩
  simp [verifyToken, jwtVerify, generateToken, macOf, nbfViolated, hne]

/-- Witness for C3 at `secret = "s"`, `sub = "u1"`, `now = 0`, `ttl = 10`,
`t = 5`. -/
theorem verify_after_issue_roundtrip_witness :
    (5 : Nat) < 0 + 10 ∧
    (verifyToken "s" (.token (generateToken "s" "u1" 0 10)) 5
        = .ok (generateToken "s" "u1" 0 10) ∧
      (generateToken "s" "u1" 0 10).sub = "u1") :=
  ⟨by decide, verify_after_issue_roundtrip "s" "u1" 0 10 5 (by decide)⟩

/-- C7 counterexample: a token that is both past its expiry and carries a
bad signature is reported `MalformedCredential`, not `ExpiredCredential`
— the signature check precedes the expiry check, so "fails with
ExpiredCredential when the current time is at or past the expiry" does
not hold unconditionally. -/
theorem expired_tampered_token_is_malformed :
    (⟨"u1", 0, 10, none, macOf "other" "u1" 0 10 none⟩ : Token).exp ≤ 20 ∧
    verifyToken "secret" (.token ⟨"u1", 0, 10, none, macOf "other" "u1" 0 10 none⟩) 20
      = .error .MalformedCredential ∧
    verifyToken "secret" (.token ⟨"u1", 0, 10, none, macOf "other" "u1" 0 10 none⟩) 20
      ≠ .error .ExpiredCredential := by
  exact ⟨by decide, by decide, by decide⟩

/-- C7 (amended): verification is pure, and classifies failures as —
`ExpiredCredential` when the signature is genuine, no not-before claim is
violated, and the current time is at or past the expiry;
`MalformedCredential` when the signature or the token structure is
invalid (checked first); `InvalidCredential` for any other verification
error (here: a violated not-before claim). -/
theorem verifyToken_error_kinds (secret : String) (tk : Token) (now : Nat) (s : String) :
    (tk.sig = macOf secret tk.sub tk.iat tk.exp tk.nbf → nbfViolated tk.nbf now = false →
      tk.exp ≤ now → verifyToken secret (.token tk) now = .error .ExpiredCredential) ∧
    (tk.sig ≠ macOf secret tk.sub tk.iat tk.exp tk.nbf →
      verifyToken secret (.token tk) now = .error .MalformedCredential) ∧
    (verifyToken secret (.notAJwt s) now = .error .MalformedCredential) ∧
    (tk.sig = macOf secret tk.sub tk.iat tk.exp tk.nbf → nbfViolated tk.nbf now = true →
      verifyToken secret (.token tk) now = .error .InvalidCredential) := by
  refine ⟨?_, ?_, ?_, ?_⟩
  · intro hsig hnbf hexp
    simp [verifyToken, jwtVerify, hsig, hnbf, hexp]
  · intro hsig
    simp [verifyToken, jwtVerify, hsig]
  · simp [verifyToken, jwtVerify]
  · intro hsig hnbf
    simp [verifyToken, jwtVerify, hsig, hnbf]

/-- Witness for C7's amended theorem: one concrete token per error kind. -/
theorem verifyToken_error_kinds_witness :
    verifyToken "k" (.token ⟨"u", 0, 10, none, macOf "k" "u" 0 10 none⟩) 10
      = .error .ExpiredCredential ∧
    verifyToken "k" (.token ⟨"u", 0, 10, none, macOf "bad" "u" 0 10 none⟩) 5
      = .error .MalformedCredential ∧
    verifyToken "k" (.notAJwt "garbage") 5 = .error .MalformedCredential ∧
    verifyToken "k" (.token ⟨"u", 0, 10, some 3, macOf "k" "u" 0 10 (some 3)⟩) 2
      = .error .InvalidCredential :=
  ⟨(verifyToken_error_kinds "k" ⟨"u", 0, 10, none, macOf "k" "u" 0 10 none⟩ 10 "x").1
      (by decide) (by decide) (by decide),
   (verifyToken_error_kinds "k" ⟨"u", 0, 10, none, macOf "bad" "u" 0 10 none⟩ 5 "x").2.1
      (by decide),
   (verifyToken_error_kinds "k" ⟨"u", 0, 10, none, macOf "k" "u" 0 10 none⟩ 5 "garbage").2.2.1,
   (verifyToken_error_kinds "k" ⟨"u", 0, 10, some 3, macOf "k" "u" 0 10 (some 3)⟩ 2 "x").2.2.2
      (by decide) (by decide)⟩

/-- C2: every authentication failure of the CJS gate — missing token,
any verification error, a throwing store lookup, or a subject id that no
longer resolves — is answered with status 401 and the handler is not
invoked (the result is a rejection); in particular an expired token and a
malformed token are both rejected with the same status 401, differing
only in the response message. -/
theorem authMiddleware_failures_all_401 :
    (∀ v f h, extractTokenFromHeader h = none →
      authMiddleware v f h = .rejected 401 (createUnauthorizedResponse "Access token required")) ∧
    (∀ v f h, extractTokenFromHeader h = some "" →
      authMiddleware v f h = .rejected 401 (createUnauthorizedResponse "Access token required")) ∧
    (∀ v f h t e, extractTokenFromHeader h = some t → t ≠ "" → v t = .error e →
      ∃ b, authMiddleware v f h = .rejected 401 b) ∧
    (∀ v f h t tok msg, extractTokenFromHeader h = some t → t ≠ "" → v t = .ok tok →
      f tok.sub = .error msg → ∃ b, authMiddleware v f h = .rejected 401 b) ∧
    (∀ v f h t tok, extractTokenFromHeader h = some t → t ≠ "" → v t = .ok tok →
      f tok.sub = .ok none →
      authMiddleware v f h = .rejected 401 (createUnauthorizedResponse "User no longer exists")) ∧
    (∀ v f h t, extractTokenFromHeader h = some t → t ≠ "" →
      v t = .error .ExpiredCredential →
      authMiddleware v f h = .rejected 401 (createUnauthorizedResponse "Token has expired")) ∧
    (∀ v f h t, extractTokenFromHeader h = some t → t ≠ "" →
      v t = .error .MalformedCredential →
      authMiddleware v f h = .rejected 401 (createUnauthorizedResponse "Authentication failed")) ∧
    (∀ (v2 : String → Except String Token) (f2 : String → Except String (Option StoredUser))
        c h t msg,
      extractCredential c h = some t → t ≠ "" → v2 t = .error msg →
      verifyJWT v2 f2 c h
        = .rejected 401 (unauthorizedResponse ("Invalid access token: " ++ msg))) ∧
    (∀ (v2 : String → Except String Token) (f2 : String → Except String (Option StoredUser))
        c h t tok,
      extractCredential c h = some t → t ≠ "" → v2 t = .ok tok → f2 tok.sub = .ok none →
      verifyJWT v2 f2 c h = .rejected 401 (unauthorizedResponse "Unauthorized access")) := by
  refine ⟨?_, ?_, ?_, ?_, ?_, ?_, ?_, ?_, ?_⟩
  · intro v f h h1
    simp [authMiddleware, h1]
  · intro v f h h1
    simp [authMiddleware, h1]
  · intro v f h t e h1 h2 h3
    obtain ⟨b, hb⟩ := authErrorCatch_status e.message
    exact ⟨b, by simp [authMiddleware, h1, h2, h3, hb]⟩
  · intro v f h t tok msg h1 h2 h3 h4
    obtain ⟨b, hb⟩ := authErrorCatch_status msg
    exact ⟨b, by simp [authMiddleware, h1, h2, h3, h4, hb]⟩
  · intro v f h t tok h1 h2 h3 h4
    simp [authMiddleware, h1, h2, h3, h4]
  · intro v f h t h1 h2 h3
    have hc : authErrorCatch (CredentialError.message .ExpiredCredential)
        = .rejected 401 (createUnauthorizedResponse "Token has expired") := by decide
    simp [authMiddleware, h1, h2, h3, hc]
  · intro v f h t h1 h2 h3
    have hc : authErrorCatch (CredentialError.message .MalformedCredential)
        = .rejected 401 (createUnauthorizedResponse "Authentication failed") := by decide
    simp [authMiddleware, h1, h2, h3, hc]
  · intro v2 f2 c h t msg h1 h2 h3
    simp [verifyJWT, h1, h2, h3]
  · intro v2 f2 c h t tok h1 h2 h3 h4
    simp [verifyJWT, h1, h2, h3, h4]

/-- Witness for C2: an expired token on a concrete request is rejected
with 401. -/
theorem authMiddleware_failures_all_401_witness :
    (extractTokenFromHeader (some "Bearer abc") = some "abc" ∧ "abc" ≠ "") ∧
    authMiddleware (fun _ => .error .ExpiredCredential) (fun _ => .ok none) (some "Bearer abc")
      = .rejected 401 (createUnauthorizedResponse "Token has expired") :=
  ⟨⟨by decide, by decide⟩,
   authMiddleware_failures_all_401.2.2.2.2.2.1
      (fun _ => .error .ExpiredCredential) (fun _ => .ok none) (some "Bearer abc") "abc"
      (by decide) (by decide) rfl⟩

/-- When the CJS gate proceeds, the attached context's `role` read is
`undefined`: the gate attaches only `{id, name, email}`. -/
theorem authMiddleware_role_none (v : String → Except CredentialError Token)
    (f : String → Except String (Option StoredUser)) (h : Option String) (p : ReqUser)
    (hp : authMiddleware v f h = .proceeded p) : p.role = none := by
  cases hx : extractTokenFromHeader h with
  | none => simp [authMiddleware, hx] at hp
  | some t =>
    by_cases hte : t = ""
    · subst hte
      simp [authMiddleware, hx] at hp
    · cases hv : v t with
      | error e =>
        obtain ⟨b, hb⟩ := authErrorCatch_status e.message
        rw [show authMiddleware v f h = .rejected 401 b by
          simp [authMiddleware, hx, hte, hv, hb]] at hp
        cases hp
      | ok tok =>
        cases hf : f tok.sub with
        | error msg =>
          obtain ⟨b, hb⟩ := authErrorCatch_status msg
          rw [show authMiddleware v f h = .rejected 401 b by
            simp [authMiddleware, hx, hte, hv, hf, hb]] at hp
          cases hp
        | ok ou =>
          cases ou with
          | none => simp [authMiddleware, hx, hte, hv, hf] at hp
          | some u =>
            rw [show authMiddleware v f h = .proceeded ⟨u.id, u.name, u.email, none⟩ by
              simp [authMiddleware, hx, hte, hv, hf]] at hp
            injection hp with hp
            rw [← hp]

/-- C4 counterexample: a stored principal whose stored role marker is
admin (`isAdmin: 'admin'`, the only admin marker any schema under `src/`
declares), authenticated by the ESM gate — which attaches the full
document — is nevertheless rejected with 403 by `authorize('admin')`:
the document has no `role` path, so the middleware's `req.user.role`
read yields `undefined`.  The claim's admin-proceeds case is false on
this input. -/
theorem stored_admin_rejected_by_authorize :
    verifyJWT (fun _ => .ok ⟨"u1", 0, 99, none, macOf "k" "u1" 0 99 none⟩)
        (fun _ => .ok (some (⟨"u1", "ana", "a@b.c", "pw", "Ana B", "admin"⟩ : UserDoc)))
        (some "cookieTok") none
      = .proceeded ⟨"u1", "ana", "a@b.c", "pw", "Ana B", "admin"⟩ ∧
    (⟨"u1", "ana", "a@b.c", "pw", "Ana B", "admin"⟩ : UserDoc).isAdmin = "admin" ∧
    authorizeOn UserDoc.role ["admin"]
        (some (⟨"u1", "ana", "a@b.c", "pw", "Ana B", "admin"⟩ : UserDoc))
      = .rejected 403 (createForbiddenResponse "Insufficient permissions") ∧
    authorizeOn UserDoc.role ["admin"]
        (some (⟨"u1", "ana", "a@b.c", "pw", "Ana B", "admin"⟩ : UserDoc))
      ≠ .proceeded ⟨"u1", "ana", "a@b.c", "pw", "Ana B", "admin"⟩ := by
  exact ⟨by decide, by decide, by decide, by decide⟩

/-- C4 (amended): the role-check middleware rejects with 401 when no
principal is attached and with 403 when the attached principal's role is
absent or not in the required set; a request requiring the admin role
from an authenticated principal whose stored role marker is admin is
ALSO rejected with 403, because no schema under `src/` stores a `role`
field (the ESM marker is `isAdmin`, which `authorize` never reads): the
ESM gate attaches a document whose `role` read is `undefined`, and the
CJS gate attaches a three-field projection without `role`. -/
theorem authorize_role_check_amended :
    (∀ roles, authorize roles none
        = .rejected 401 (createUnauthorizedResponse "Authentication required")) ∧
    (∀ roles (p : ReqUser), p.role = none →
      authorize roles (some p) = .rejected 403 (createForbiddenResponse "Insufficient permissions")) ∧
    (∀ roles (p : ReqUser) r, p.role = some r → roles.contains r = false →
      authorize roles (some p) = .rejected 403 (createForbiddenResponse "Insufficient permissions")) ∧
    (∀ roles (u : UserDoc), authorizeOn UserDoc.role roles (some u)
        = .rejected 403 (createForbiddenResponse "Insufficient permissions")) ∧
    (∀ v f h (p : ReqUser) roles, authMiddleware v f h = .proceeded p →
      authorize roles (some p) = .rejected 403 (createForbiddenResponse "Insufficient permissions")) := by
  refine ⟨?_, ?_, ?_, ?_, ?_⟩
  · intro roles; rfl
  · intro roles p hr
    simp [authorize, authorizeOn, hr]
  · intro roles p r hr hmem
    by_cases he : r = ""
    · simp [authorize, authorizeOn, hr, he]
    · have hm : r ∉ roles := by simpa using hmem
      simp [authorize, authorizeOn, hr, he, hm]
  · intro roles u; rfl
  · intro v f h p roles hp
    have hr := authMiddleware_role_none v f h p hp
    simp [authorize, authorizeOn, hr]

/-- Witness for C4's amended theorem: a `user`-role context requiring
`admin` is rejected 403; a stored `isAdmin: 'admin'` document is
rejected 403; a principal attached by the CJS gate is rejected 403 for
any required role. -/
theorem authorize_role_check_amended_witness :
    authorize ["admin"] (some ⟨"u2", "Bo", "b@b.c", some "user"⟩)
      = .rejected 403 (createForbiddenResponse "Insufficient permissions") ∧
    authorizeOn UserDoc.role ["admin"] (some ⟨"u9", "kay", "k@b.c", "pw", "Kay C", "admin"⟩)
      = .rejected 403 (createForbiddenResponse "Insufficient permissions") ∧
    authorize ["user"] (some ⟨"u7", "Joe", "j@b.c", none⟩)
      = .rejected 403 (createForbiddenResponse "Insufficient permissions") :=
  ⟨authorize_role_check_amended.2.2.1 ["admin"] ⟨"u2", "Bo", "b@b.c", some "user"⟩ "user"
      rfl (by decide),
   authorize_role_check_amended.2.2.2.1 ["admin"] ⟨"u9", "kay", "k@b.c", "pw", "Kay C", "admin"⟩,
   authorize_role_check_amended.2.2.2.2
      (fun _ => .ok ⟨"t", 0, 9, none, macOf "k" "t" 0 9 none⟩)
      (fun _ => .ok (some ⟨"u7", "Joe", "j@b.c", "pw", none⟩))
      (some "Bearer t") ⟨"u7", "Joe", "j@b.c", none⟩ ["user"] (by decide)⟩

/-- C5: evaluated on a stored principal whose role marker is `admin`, the
CJS gate attaches only the three fields id, name, email — the attached
context's `role` reads `undefined`, so it is not the spec's four-field
projection — and a subsequent `authorize('admin')` on that context is
rejected with 403 even though the stored role is `admin`. -/
theorem authMiddleware_attaches_three_fields_without_role :
    authMiddleware (fun _ => .ok ⟨"u1", 0, 10, none, macOf "s" "u1" 0 10 none⟩)
        (fun _ => .ok (some ⟨"u1", "Nia", "nia@example.com", "pw", some "admin"⟩))
        (some "Bearer tkn")
      = .proceeded ⟨"u1", "Nia", "nia@example.com", none⟩ ∧
    specPrincipalProjection ⟨"u1", "Nia", "nia@example.com", "pw", some "admin"⟩
      = ⟨"u1", "Nia", "nia@example.com", some "admin"⟩ ∧
    (⟨"u1", "Nia", "nia@example.com", none⟩ : ReqUser)
      ≠ specPrincipalProjection ⟨"u1", "Nia", "nia@example.com", "pw", some "admin"⟩ ∧
    authorize ["admin"] (some ⟨"u1", "Nia", "nia@example.com", none⟩)
      = .rejected 403 (createForbiddenResponse "Insufficient permissions") := by
  exact ⟨by decide, by decide, by decide, by decide⟩

/-- C6: the ownership check answers 403 whenever the resolved owner id
differs from the principal's id; a throwing resolver and a resolver that
yields no owner are both answered with the generic 500
`Error checking resource ownership`; and no resolver failure ever lets
the request proceed. -/
theorem checkResourceOwnership_spec :
    (∀ res rid (u : ReqUser) ownerId, res rid = .ok (some ownerId) → ownerId ≠ u.id →
      checkResourceOwnership res rid (some u)
        = .rejected 403 (createForbiddenResponse "Access denied to this resource")) ∧
    (∀ res rid (u : ReqUser) msg, res rid = .error msg →
      checkResourceOwnership res rid (some u)
        = .rejected 500 (createErrorResponse "Error checking resource ownership")) ∧
    (∀ res rid (u : ReqUser), res rid = .ok none →
      checkResourceOwnership res rid (some u)
        = .rejected 500 (createErrorResponse "Error checking resource ownership")) ∧
    (∀ res rid user ctx, ((∃ msg, res rid = .error msg) ∨ res rid = .ok none) →
      checkResourceOwnership res rid user ≠ .proceeded ctx) := by
  refine ⟨?_, ?_, ?_, ?_⟩
  · intro res rid u oid h1 h2
    simp [checkResourceOwnership, h1, h2]
  · intro res rid u msg h1
    simp [checkResourceOwnership, h1]
  · intro res rid u h1
    simp [checkResourceOwnership, h1]
  · intro res rid user ctx hf
    cases user with
    | none => simp [checkResourceOwnership]
    | some u =>
      rcases hf with ⟨msg, hm⟩ | hn
      · simp [checkResourceOwnership, hm]
      · simp [checkResourceOwnership, hn]

/-- Witness for C6: a resolver yielding owner `u10` against principal
`u20` is rejected 403; a throwing resolver and a `null`-yielding resolver
are answered 500 and do not proceed. -/
theorem checkResourceOwnership_spec_witness :
    checkResourceOwnership (fun _ => .ok (some "u10")) "t1" (some ⟨"u20", "B", "b@c", none⟩)
      = .rejected 403 (createForbiddenResponse "Access denied to this resource") ∧
    checkResourceOwnership (fun _ => .error "store down") "t1" (some ⟨"u20", "B", "b@c", none⟩)
      = .rejected 500 (createErrorResponse "Error checking resource ownership") ∧
    checkResourceOwnership (fun _ => .ok none) "t1" (some ⟨"u20", "B", "b@c", none⟩)
      = .rejected 500 (createErrorResponse "Error checking resource ownership") ∧
    checkResourceOwnership (fun _ => .ok none) "t1" (some ⟨"u20", "B", "b@c", none⟩)
      ≠ .proceeded ⟨"u20", "B", "b@c", none⟩ :=
  ⟨checkResourceOwnership_spec.1 _ "t1" ⟨"u20", "B", "b@c", none⟩ "u10" rfl (by decide),
   checkResourceOwnership_spec.2.1 _ "t1" ⟨"u20", "B", "b@c", none⟩ "store down" rfl,
   checkResourceOwnership_spec.2.2.1 _ "t1" ⟨"u20", "B", "b@c", none⟩ rfl,
   checkResourceOwnership_spec.2.2.2 _ "t1" (some ⟨"u20", "B", "b@c", none⟩)
      ⟨"u20", "B", "b@c", none⟩ (Or.inr rfl)⟩

/-- C8: the ESM gate checks the `accessToken` cookie first — a truthy
cookie wins regardless of the header — falls back to the `Authorization`
header (with the first `Bearer ` occurrence removed) only when the cookie
is falsy, and rejects with 401 `Unauthorized access` when both are
absent. -/
theorem credential_extraction_cookie_first :
    (∀ c h, c ≠ "" → extractCredential (some c) h = some c) ∧
    (∀ co hv, jsFalsy co = true →
      extractCredential co (some hv) = some (jsReplaceOnce hv "Bearer ")) ∧
    (∀ co, jsFalsy co = true → extractCredential co none = none) ∧
    (∀ (v : String → Except String Token) (f : String → Except String (Option StoredUser)),
      verifyJWT v f none none
        = .rejected 401 (unauthorizedResponse "Unauthorized access")) ∧
    (∀ (v : String → Except String Token) (f : String → Except String (Option StoredUser))
        co h, jsFalsy (extractCredential co h) = true →
      verifyJWT v f co h = .rejected 401 (unauthorizedResponse "Unauthorized access")) := by
  refine ⟨?_, ?_, ?_, ?_, ?_⟩
  · intro c h hc
    simp [extractCredential, hc]
  · intro co hv hf
    cases co with
    | none => simp [extractCredential]
    | some s =>
      simp [jsFalsy] at hf
      simp [extractCredential, hf]
  · intro co hf
    cases co with
    | none => simp [extractCredential]
    | some s =>
      simp [jsFalsy] at hf
      simp [extractCredential, hf]
  · intro v f
    rfl
  · intro v f co h hf
    cases hx : extractCredential co h with
    | none => simp [verifyJWT, hx]
    | some s =>
      rw [hx] at hf
      simp [jsFalsy] at hf
      simp [verifyJWT, hx, hf]

/-- Witness for C8: concrete cookie/header combinations. -/
theorem credential_extraction_cookie_first_witness :
    extractCredential (some "cookieTok") (some "Bearer headerTok") = some "cookieTok" ∧
    extractCredential none (some "Bearer headerTok") = some "headerTok" ∧
    extractCredential (some "") none = none ∧
    verifyJWT (fun _ => .error "unused")
        (fun _ => (.ok none : Except String (Option StoredUser))) none none
      = .rejected 401 (unauthorizedResponse "Unauthorized access") :=
  ⟨credential_extraction_cookie_first.1 "cookieTok" (some "Bearer headerTok") (by decide),
   by
    have h := credential_extraction_cookie_first.2.1 none "Bearer headerTok" (by decide)
    simpa using h,
   credential_extraction_cookie_first.2.2.1 (some "") (by decide),
   credential_extraction_cookie_first.2.2.2.1 _ _⟩

/-- C9: the optional-auth middleware invokes the next handler on every
input — there is no input on which it rejects — and the attached context
is a principal exactly when extraction, verification and resolution all
succeed; on any failure nothing is attached. -/
theorem optionalAuth_never_rejects (v : String → Except CredentialError Token)
    (f : String → Except String (Option StoredUser)) (h : Option String) :
    (∃ a, optionalAuth v f h = .proceeded a) ∧
    (∀ p : ReqUser, optionalAuth v f h = .proceeded (some p) ↔
      ∃ t tok u, extractTokenFromHeader h = some t ∧ t ≠ "" ∧ v t = .ok tok ∧
        f tok.sub = .ok (some u) ∧ p = ⟨u.id, u.name, u.email, none⟩) := by
  cases hx : extractTokenFromHeader h with
  | none =>
    have hrun : optionalAuth v f h = .proceeded none := by simp [optionalAuth, hx]
    refine ⟨⟨none, hrun⟩, ?_⟩
    intro p
    constructor
    · intro hp
      rw [hrun] at hp
      injection hp with hp
      cases hp
    · rintro ⟨t, tok, u, ht, -⟩
      cases ht
  | some t =>
    by_cases hte : t = ""
    · subst hte
      have hrun : optionalAuth v f h = .proceeded none := by simp [optionalAuth, hx]
      refine ⟨⟨none, hrun⟩, ?_⟩
      intro p
      constructor
      · intro hp
        rw [hrun] at hp
        injection hp with hp
        cases hp
      · rintro ⟨t', tok, u, ht, hte', -⟩
        injection ht with ht
        exact absurd ht.symm hte'
    · cases hv : v t with
      | error e =>
        have hrun : optionalAuth v f h = .proceeded none := by
          simp [optionalAuth, hx, hte, hv]
        refine ⟨⟨none, hrun⟩, ?_⟩
        intro p
        constructor
        · intro hp
          rw [hrun] at hp
          injection hp with hp
          cases hp
        · rintro ⟨t', tok, u, ht, -, hv', -⟩
          injection ht with ht
          subst ht
          rw [hv] at hv'
          cases hv'
      | ok tok =>
        cases hfr : f tok.sub with
        | error msg =>
          have hrun : optionalAuth v f h = .proceeded none := by
            simp [optionalAuth, hx, hte, hv, hfr]
          refine ⟨⟨none, hrun⟩, ?_⟩
          intro p
          constructor
          · intro hp
            rw [hrun] at hp
            injection hp with hp
            cases hp
          · rintro ⟨t', tok', u, ht, -, hv', hf', -⟩
            injection ht with ht
            subst ht
            rw [hv] at hv'
            injection hv' with hv'
            subst hv'
            rw [hfr] at hf'
            cases hf'
        | ok ou =>
          cases ou with
          | none =>
            have hrun : optionalAuth v f h = .proceeded none := by
              simp [optionalAuth, hx, hte, hv, hfr]
            refine ⟨⟨none, hrun⟩, ?_⟩
            intro p
            constructor
            · intro hp
              rw [hrun] at hp
              injection hp with hp
              cases hp
            · rintro ⟨t', tok', u, ht, -, hv', hf', -⟩
              injection ht with ht
              subst ht
              rw [hv] at hv'
              injection hv' with hv'
              subst hv'
              rw [hfr] at hf'
              cases hf'
          | some u =>
            have hrun : optionalAuth v f h
                = .proceeded (some ⟨u.id, u.name, u.email, none⟩) := by
              simp [optionalAuth, hx, hte, hv, hfr]
            refine ⟨⟨some ⟨u.id, u.name, u.email, none⟩, hrun⟩, ?_⟩
            intro p
            constructor
            · intro hp
              rw [hrun] at hp
              injection hp with hp
              injection hp with hp
              exact ⟨t, tok, u, rfl, hte, hv, hfr, hp.symm⟩
            · rintro ⟨t', tok', u', ht, -, hv', hf', hp⟩
              injection ht with ht
              subst ht
              rw [hv] at hv'
              injection hv' with hv'
              subst hv'
              rw [hfr] at hf'
              injection hf' with hf'
              injection hf' with hf'
              subst hf'
              subst hp
              exact hrun

/-- Witness for C9: with a malformed token the optional gate still
proceeds (with nothing attached). -/
theorem optionalAuth_never_rejects_witness :
    ∃ a, optionalAuth (fun _ => .error .MalformedCredential) (fun _ => .ok none)
        (some "Bearer x") = .proceeded a :=
  (optionalAuth_never_rejects (fun _ => .error .MalformedCredential) (fun _ => .ok none)
    (some "Bearer x")).1

/-- C10: whenever `UserService.login` fails — unresolvable email, failed
password comparison, or a throwing collaborator — the thrown error
carries the one fixed message `Error Logging in User. Please try again.`,
so any two failing runs are indistinguishable by the error. -/
theorem login_failure_message_fixed :
    (∀ lu cp st e p m, UserService.login lu cp st e p = .error m →
      m = "Error Logging in User. Please try again.") ∧
    (∀ lu cp st e p lu2 cp2 st2 e2 p2 m m2,
      UserService.login lu cp st e p = .error m →
      UserService.login lu2 cp2 st2 e2 p2 = .error m2 → m = m2) := by
  have key : ∀ lu cp st e p m, UserService.login lu cp st e p = .error m →
      m = "Error Logging in User. Please try again." := by
    intro lu cp st e p m hm
    unfold UserService.login at hm
    cases ha : UserService.loginAttempt lu cp st e p with
    | ok r =>
      rw [ha] at hm
      cases hm
    | error msg =>
      rw [ha] at hm
      injection hm with hm
      exact hm.symm
  exact ⟨key, fun lu cp st e p lu2 cp2 st2 e2 p2 m m2 h1 h2 =>
    (key lu cp st e p m h1).trans (key lu2 cp2 st2 e2 p2 m2 h2).symm⟩

/-- Witness for C10: a lookup that resolves no user and a run with a
failing password comparison both fail with the fixed message. -/
theorem login_failure_message_fixed_witness :
    UserService.login (fun _ => .ok none) (fun _ _ => .ok true) (fun _ => .ok "tok")
        "a@b.c" "pw" = .error "Error Logging in User. Please try again." ∧
    UserService.login (fun _ => .ok (some ⟨"u1", "ana", "a@b.c", "hash"⟩))
        (fun _ _ => .ok false) (fun _ => .ok "tok") "a@b.c" "wrong"
      = .error "Error Logging in User. Please try again." ∧
    "Error Logging in User. Please try again."
      = "Error Logging in User. Please try again." :=
  ⟨by decide, by decide,
   login_failure_message_fixed.2 (fun _ => .ok none) (fun _ _ => .ok true) (fun _ => .ok "tok")
      "a@b.c" "pw" (fun _ => .ok (some ⟨"u1", "ana", "a@b.c", "hash"⟩)) (fun _ _ => .ok false)
      (fun _ => .ok "tok") "a@b.c" "wrong" _ _ (by decide) (by decide)⟩

end Backend
